import Mathlib

/-!
Shallow embedding of the `smart` repository's SCSI/ATA command-and-response
pipeline, together with theorems settling the specification claims.

Source files embedded:
  * `utilities` (src/unnamed/part_001): `MSignificantBit`
  * `src/atasmart/ataidentify.go`: `swapByteOrder`, `GetSerialNumber`,
    `GetModelNumber`, `GetFirmwareRevision`, `GetSectorSize`,
    `GetATAMajorVersion`, `Transport`
  * `src/scsismart/commands.go`: `InquiryResponse`, `INQRespLen`
  * `src/scsismart/scsigeneric.go`: `SCSIInquiry`, `readCapacity`,
    `GetDiskInfo`, `DetectSCSIType`

Go machine integers are modelled as `Nat` with explicit truncation
(`% 65536`, `% 2^64`) exactly where the Go types (`uint16`, `uint64`)
truncate.  Fallible operations are modelled over a small `SgWorld` oracle
recording what the kernel/device returns, and device-handle lifecycle is
modelled as a list of open/close events.
-/

/-- Translation of `utilities.MSignificantBit` (src/unnamed/part_001):
`bits.Len(x) - 1` guarded so that input 0 returns 0.  For `x > 0`,
Go's `bits.Len x - 1` equals `Nat.log2 x`. -/
def MSignificantBit (x : Nat) : Nat :=
  if x = 0 then 0 else Nat.log2 x

/-- Rendering of Go's `fmt.Sprintf` verb `%#0Wx` for a natural number:
lowercase hex digits, prefixed with `0x`, zero-padded so the whole string
(prefix included) is at least `width` characters. -/
def goHexAlt (width v : Nat) : String :=
  let ds := Nat.toDigits 16 v
  let padLen := width - (ds.length + 2)
  "0x" ++ String.mk (List.replicate padLen '0') ++ String.mk ds

/-- Translation of `IdentDevData.swapByteOrder`
(src/atasmart/ataidentify.go:101-109).  The Go loop steps `i` by 2 and
assigns `tmp[i], tmp[i+1] = b[i+1], b[i]`; on an odd-length slice the
final iteration indexes `b[i+1]` past the end and panics, which we model
as `none`. -/
def swapByteOrder : List UInt8 → Option (List UInt8)
  | [] => some []
  | [_] => none
  | a :: b :: rest => (swapByteOrder rest).map (fun t => b :: a :: t)

/-- Model of the ATA IDENTIFY DEVICE structure `IdentDevData`
(src/atasmart/ataidentify.go:76-98), restricted to the byte-array text
fields used by the accessor methods.  The length facts record the Go
array types `[20]byte`, `[8]byte`, `[40]byte`. -/
structure IdentDevData where
  SerialNumber : List UInt8
  FirmwareRev : List UInt8
  ModelNumber : List UInt8
  serial_len : SerialNumber.length = 20
  firmware_len : FirmwareRev.length = 8
  model_len : ModelNumber.length = 40

/-- Translation of `IdentDevData.GetSerialNumber`
(src/atasmart/ataidentify.go:112-114): `d.swapByteOrder(d.SerialNumber[:])`. -/
def IdentDevData.GetSerialNumber (d : IdentDevData) : Option (List UInt8) :=
  swapByteOrder d.SerialNumber

/-- Translation of `IdentDevData.GetModelNumber`
(src/atasmart/ataidentify.go:117-119). -/
def IdentDevData.GetModelNumber (d : IdentDevData) : Option (List UInt8) :=
  swapByteOrder d.ModelNumber

/-- Translation of `IdentDevData.GetFirmwareRevision`
(src/atasmart/ataidentify.go:122-124). -/
def IdentDevData.GetFirmwareRevision (d : IdentDevData) : Option (List UInt8) :=
  swapByteOrder d.FirmwareRev

/-- Translation of `IdentDevData.GetSectorSize`
(src/atasmart/ataidentify.go:136-147) as a function of the 16-bit
sector-size word (word 106).  `LogSec` and `PhySec` are Go `uint16`
values, so the shift `PhySec <<= (w & 0x0f)` truncates modulo 2^16. -/
def GetSectorSize (w : Nat) : Nat × Nat :=
  let LogSec := 512
  let PhySec := 512
  let PhySec :=
    if w &&& 0xc000 = 0x4000 then
      if w &&& 0x2000 ≠ 0x0000 then (PhySec <<< (w &&& 0x0f)) % 65536 else PhySec
    else PhySec
  (LogSec, PhySec)

/-- Body of the Go `switch` in `GetATAMajorVersion`
(src/atasmart/ataidentify.go:156-177): cases 1 through 10 produce version
labels, any other value leaves the result string at its zero value `""`. -/
def majorVersionSwitch (m : Nat) : String :=
  if m = 1 then "ATA-1"
  else if m = 2 then "ATA-2"
  else if m = 3 then "ATA-3"
  else if m = 4 then "ATA/ATAPI-4"
  else if m = 5 then "ATA/ATAPI-5"
  else if m = 6 then "ATA/ATAPI-6"
  else if m = 7 then "ATA/ATAPI-7"
  else if m = 8 then "ATA8-ACS"
  else if m = 9 then "ACS-2"
  else if m = 10 then "ACS-3"
  else ""

/-- Translation of `IdentDevData.GetATAMajorVersion`
(src/atasmart/ataidentify.go:150-180) as a function of the 16-bit major
version word (word 80). -/
def GetATAMajorVersion (w : Nat) : String :=
  if w = 0 ∨ w = 0xffff then "This device does not report ATA major version"
  else majorVersionSwitch (MSignificantBit w)

/-- Body of the inner Go `switch` on `MSignificantBit` inside the Serial
ATA case of `Transport` (src/atasmart/ataidentify.go:209-228); strings are
the suffixes appended to `s` by `s +=`.  The second argument is the low
12 bits of the transport word, used by the default case's
`fmt.Sprintf(" SATA (%#03x)", ...)`. -/
def sataSwitch (m low : Nat) : String :=
  if m = 0 then " ATA8-AST"
  else if m = 1 then " SATA 1.0a"
  else if m = 2 then " SATA II Ext"
  else if m = 3 then " SATA 2.5"
  else if m = 4 then " SATA 2.6"
  else if m = 5 then " SATA 3.0"
  else if m = 6 then " SATA 3.1"
  else if m = 7 then " SATA 3.2"
  else " SATA (" ++ goHexAlt 3 low ++ ")"

/-- Translation of `IdentDevData.Transport`
(src/atasmart/ataidentify.go:197-236) as a function of the 16-bit
transport major version word (word 222).  The Go `switch` on
`d.TransportMajor >> 12` is rendered as a chain of equality tests. -/
def Transport (w : Nat) : String :=
  if w = 0 ∨ w = 0xffff then "This device does not report transport"
  else if w >>> 12 = 0x0 then "Parallel ATA"
  else if w >>> 12 = 0x1 then
    "Serial ATA" ++ sataSwitch (MSignificantBit (w &&& 0x0fff)) (w &&& 0x0fff)
  else if w >>> 12 = 0xe then "PCIe (" ++ goHexAlt 3 (w &&& 0x0fff) ++ ")"
  else "Unknown (" ++ goHexAlt 4 w ++ ")"

/-!
Spec-side definitions, written from the specification's wording, to be
compared with the source translations above.
-/

/-- Mapping written from the spec's words for the ATA major version
decode: "map indices 1-10 to version labels ATA-1 through ACS-3; unmapped
indices yield no label (empty)". -/
def specMajorVersionLabel (i : Nat) : String :=
  if 1 ≤ i ∧ i ≤ 10 then
    (["ATA-1", "ATA-2", "ATA-3", "ATA/ATAPI-4", "ATA/ATAPI-5", "ATA/ATAPI-6",
      "ATA/ATAPI-7", "ATA8-ACS", "ACS-2", "ACS-3"].getD (i - 1) "")
  else ""

/-- Decode of the ATA major version word written from the spec's words:
report not-reported for 0 and 0xFFFF, otherwise label the index of the
most-significant set bit. -/
def specGetATAMajorVersion (w : Nat) : String :=
  if w = 0 ∨ w = 0xffff then "This device does not report ATA major version"
  else specMajorVersionLabel (MSignificantBit w)

/-- SATA revision names written from the spec's words: "indices 0-7 map
to ATA8-AST through SATA 3.2". -/
def sataRevisionLabels : List String :=
  ["ATA8-AST", "SATA 1.0a", "SATA II Ext", "SATA 2.5", "SATA 2.6",
   "SATA 3.0", "SATA 3.1", "SATA 3.2"]

/-- Decode of the transport major version word written from the spec's
words: not-reported for 0 and 0xFFFF; top nibble 0x0 Parallel ATA; top
nibble 0x1 Serial ATA refined by the most-significant set bit of the low
12 bits through `sataRevisionLabels`, other indices rendering the raw
low-12-bit value in hex; top nibble 0xE PCIe with the raw low-12-bit
value in hex; any other top nibble Unknown with the full raw word in
hex. -/
def specTransport (w : Nat) : String :=
  if w = 0 ∨ w = 0xffff then "This device does not report transport"
  else if w >>> 12 = 0x0 then "Parallel ATA"
  else if w >>> 12 = 0x1 then
    match sataRevisionLabels.get? (MSignificantBit (w &&& 0x0fff)) with
    | some lbl => "Serial ATA " ++ lbl
    | none => "Serial ATA SATA (" ++ goHexAlt 3 (w &&& 0x0fff) ++ ")"
  else if w >>> 12 = 0xe then "PCIe (" ++ goHexAlt 3 (w &&& 0x0fff) ++ ")"
  else "Unknown (" ++ goHexAlt 4 w ++ ")"

/-- Evaluation fact: the most-significant set bit of `0x10` has index 4. -/
lemma msb_x10 : MSignificantBit 0x10 = 4 := by
  simp [MSignificantBit, Nat.log2]

/-- Evaluation fact: the most-significant set bit of `0x1005 &&& 0x0fff = 5`
has index 2. -/
lemma msb_low12_x1005 : MSignificantBit (0x1005 &&& 0x0fff) = 2 := by
  have h : (0x1005 : Nat) &&& 0x0fff = 5 := by decide
  rw [h]
  simp [MSignificantBit, Nat.log2]

/-- Evaluation fact: the most-significant set bit of `0x1020 &&& 0x0fff = 0x20`
has index 5. -/
lemma msb_low12_x1020 : MSignificantBit (0x1020 &&& 0x0fff) = 5 := by
  have h : (0x1020 : Nat) &&& 0x0fff = 0x20 := by decide
  rw [h]
  simp [MSignificantBit, Nat.log2]

/-!
SCSI layer (src/scsismart/commands.go, src/scsismart/scsigeneric.go).
-/

/-- Minimum length of a standard INQUIRY response
(src/scsismart/commands.go:28): `INQRespLen = 36`. -/
def INQRespLen : Nat := 36

/-- Translation of the `InquiryResponse` struct
(src/scsismart/commands.go:43-51).  Anonymous padding fields are not
named; the named fields sit at byte offsets 0 (`Peripheral`),
2 (`Version`), 8 (`VendorID`, 8 bytes), 16 (`ProductID`, 16 bytes) and
32 (`ProductRev`, 4 bytes) of the 36-byte response. -/
structure InquiryResponse where
  Peripheral : UInt8
  Version : UInt8
  VendorID : List UInt8
  ProductID : List UInt8
  ProductRev : List UInt8
deriving DecidableEq

/-- Zero value of `InquiryResponse`, as produced by Go's
`var response InquiryResponse` (src/scsismart/scsigeneric.go:168). -/
def zeroInquiry : InquiryResponse :=
  ⟨0, 0, List.replicate 8 0, List.replicate 16 0, List.replicate 4 0⟩

/-- Field extraction performed by `binary.Read` for the `InquiryResponse`
layout when at least `INQRespLen` bytes are available: each named field is
copied from its byte offset.  Byte arrays are unaffected by the
`utilities.NativeEndian` byte order. -/
def decodeInquiry (buf : List UInt8) : InquiryResponse :=
  ⟨buf.getD 0 0, buf.getD 2 0,
   (buf.drop 8).take 8, (buf.drop 16).take 16, (buf.drop 32).take 4⟩

/-- Model of `binary.Read(bytes.NewBuffer(respBuf), utilities.NativeEndian,
&response)` at src/scsismart/scsigeneric.go:179: `binary.Read` first reads
the full 36-byte struct size from the buffer; when fewer bytes are
available it returns an error without touching `response`, which then
keeps its zero value.  The call site discards the returned error. -/
def binaryReadInquiry (buf : List UInt8) : InquiryResponse :=
  if INQRespLen ≤ buf.length then decodeInquiry buf else zeroInquiry

/-- Vendor-id byte literal compared against in `DetectSCSIType`
(src/scsismart/scsigeneric.go:130):
`[8]byte{0x41, 0x54, 0x41, 0x20, 0x20, 0x20, 0x20, 0x20}`. -/
def ataVendorID : List UInt8 :=
  [0x41, 0x54, 0x41, 0x20, 0x20, 0x20, 0x20, 0x20]

/-- Translation of Go's `binary.BigEndian.Uint32(b)`:
`uint32(b[3]) | uint32(b[2])<<8 | uint32(b[1])<<16 | uint32(b[0])<<24`. -/
def binaryBigEndianUint32 (b0 b1 b2 b3 : UInt8) : Nat :=
  b3.toNat ||| (b2.toNat <<< 8) ||| (b1.toNat <<< 16) ||| (b0.toNat <<< 24)

/-- Last logical block address parsed by `readCapacity`
(src/scsismart/scsigeneric.go:230): `binary.BigEndian.Uint32(respBuf[0:])`. -/
def lastLBAOf (buf : List UInt8) : Nat :=
  binaryBigEndianUint32 (buf.getD 0 0) (buf.getD 1 0) (buf.getD 2 0) (buf.getD 3 0)

/-- Logical block size parsed by `readCapacity`
(src/scsismart/scsigeneric.go:231): `binary.BigEndian.Uint32(respBuf[4:])`. -/
def LBsizeOf (buf : List UInt8) : Nat :=
  binaryBigEndianUint32 (buf.getD 4 0) (buf.getD 5 0) (buf.getD 6 0) (buf.getD 7 0)

/-- Capacity computation of `readCapacity`
(src/scsismart/scsigeneric.go:232) on the 8-byte READ CAPACITY(10)
reply: `capacity := (uint64(lastLBA) + 1) * uint64(LBsize)`, a Go
`uint64` product, hence the explicit truncation modulo `2^64`. -/
def readCapacityBytes (buf : List UInt8) : Nat :=
  ((lastLBAOf buf + 1) * LBsizeOf buf) % 2 ^ 64

/-- Outcome oracle for the fallible kernel/device interactions of one
`SCSIDevice`: whether `unix.Open` fails, whether the INQUIRY `sendCDB`
fails (and the bytes it transfers on success), and whether the READ
CAPACITY `sendCDB` fails (and the bytes it transfers on success). -/
structure SgWorld where
  openErr : Option String
  inquiryErr : Option String
  inquiryBuf : List UInt8
  readCapErr : Option String
  readCapBuf : List UInt8
deriving DecidableEq

/-- Device-handle lifecycle events, used to model the resource
discipline of routines that open a device. -/
inductive Event where
  | opened
  | closed
deriving DecidableEq

/-- Translation of `SCSIDevice.SCSIInquiry`
(src/scsismart/scsigeneric.go:167-182): on a `sendCDB` failure it returns
the zero-valued response and the error; on success it runs `binary.Read`
(whose own error is discarded) and returns a nil error. -/
def SCSIDevice.SCSIInquiry (w : SgWorld) : InquiryResponse × Option String :=
  match w.inquiryErr with
  | some e => (zeroInquiry, some e)
  | none => (binaryReadInquiry w.inquiryBuf, none)

/-- Translation of `SCSIDevice.readCapacity`
(src/scsismart/scsigeneric.go:222-235): on a `sendCDB` failure it returns
`(0, err)`; on success it parses the 8-byte reply and returns a nil
error. -/
def SCSIDevice.readCapacity (w : SgWorld) : Nat × Option String :=
  match w.readCapErr with
  | some e => (0, some e)
  | none => (readCapacityBytes w.readCapBuf, none)

/-- Model of the `DiskAttr` record as populated by the plain-SCSI
`GetDiskInfo`, which only sets `UserCapacity`
(src/scsismart/scsigeneric.go:264-265). -/
structure DiskAttr where
  UserCapacity : Nat
deriving DecidableEq

/-- Translation of the plain-SCSI `SCSIDevice.GetDiskInfo`
(src/scsismart/scsigeneric.go:260-268): `capacity, _ := d.readCapacity()`
discards the error, and the function returns the attribute record with a
nil error. -/
def SCSIDevice.GetDiskInfo (w : SgWorld) : DiskAttr × Option String :=
  let capacity := (SCSIDevice.readCapacity w).1
  (⟨capacity⟩, none)

/-- Classification outcome of `DetectSCSIType`: the concrete type of the
returned `Dev` value (`*SATA` or `*SCSIDevice`). -/
inductive DetectOutcome where
  | sataDev
  | scsiDev
deriving DecidableEq

/-- Translation of `DetectSCSIType` (src/scsismart/scsigeneric.go:117-135)
instrumented with the device-handle events it performs: `dev.Open()`
(an `opened` event when it succeeds), then `dev.SCSIInquiry()`, whose
failure is returned as-is — the source has no `Close` call, so no
`closed` event ever occurs — then the vendor-id comparison chooses
between the `*SATA` and `*SCSIDevice` results. -/
def DetectSCSIType (w : SgWorld) : Except String DetectOutcome × List Event :=
  match w.openErr with
  | some e => (.error e, [])
  | none =>
    match SCSIDevice.SCSIInquiry w with
    | (_, some e) => (.error e, [.opened])
    | (resp, none) =>
      if resp.VendorID = ataVendorID then (.ok .sataDev, [.opened])
      else (.ok .scsiDev, [.opened])

/-!
Helper lemmas about `swapByteOrder`.
-/

/-- Helper: on a buffer of odd length the Go loop of `swapByteOrder`
reaches `i = len(b) - 1` and indexes `b[i+1]` out of bounds, modelled as
`none`. -/
lemma swapByteOrder_odd : ∀ b : List UInt8, b.length % 2 = 1 → swapByteOrder b = none
  | [], h => absurd h (by simp)
  | [_], _ => rfl
  | a :: b :: rest, h => by
    have hr : rest.length % 2 = 1 := by
      simp [List.length_cons] at h
      omega
    simp [swapByteOrder, swapByteOrder_odd rest hr]

/-- Helper: on a buffer of even length `swapByteOrder` succeeds, and
swapping the swapped buffer restores the original. -/
lemma swapByteOrder_even_swap :
    ∀ b : List UInt8, b.length % 2 = 0 →
      ∃ t, swapByteOrder b = some t ∧ swapByteOrder t = some b
  | [], _ => ⟨[], rfl, rfl⟩
  | [_], h => absurd h (by simp)
  | a :: b :: rest, h => by
    have hr : rest.length % 2 = 0 := by
      simp [List.length_cons] at h
      omega
    obtain ⟨t, h1, h2⟩ := swapByteOrder_even_swap rest hr
    exact ⟨b :: a :: t, by simp [swapByteOrder, h1], by simp [swapByteOrder, h2]⟩

/-- C9: the pairwise byte-order correction is involutive: for every
even-length byte buffer, applying `swapByteOrder` twice returns a buffer
equal to the original. -/
theorem swapByteOrder_involutive (b : List UInt8) (h : b.length % 2 = 0) :
    ∃ t, swapByteOrder b = some t ∧ swapByteOrder t = some b :=
  swapByteOrder_even_swap b h

/-- Witness for C9 at the concrete even-length buffer `[0x41, 0x42]`. -/
theorem swapByteOrder_involutive_witness :
    ∃ t, swapByteOrder [0x41, 0x42] = some t ∧ swapByteOrder t = some [0x41, 0x42] :=
  swapByteOrder_involutive [0x41, 0x42] (by decide)

/-- C10: `swapByteOrder` hits the out-of-bounds read (modelled `none`) on
every odd-length input, while the public text accessors pass the fixed
even-length fields of `IdentDevData` (20, 40 and 8 bytes), so at these
call sites the out-of-bounds branch is unreachable and each accessor is
total (returns a value). -/
theorem swapByteOrder_call_sites_total :
    (∀ b : List UInt8, b.length % 2 = 1 → swapByteOrder b = none) ∧
    (∀ d : IdentDevData,
      d.GetSerialNumber.isSome ∧ d.GetModelNumber.isSome ∧
        d.GetFirmwareRevision.isSome) := by
  refine ⟨swapByteOrder_odd, fun d => ?_⟩
  refine ⟨?_, ?_, ?_⟩
  · obtain ⟨t, h1, _⟩ := swapByteOrder_even_swap d.SerialNumber (by rw [d.serial_len])
    simp [IdentDevData.GetSerialNumber, h1]
  · obtain ⟨t, h1, _⟩ := swapByteOrder_even_swap d.ModelNumber (by rw [d.model_len])
    simp [IdentDevData.GetModelNumber, h1]
  · obtain ⟨t, h1, _⟩ := swapByteOrder_even_swap d.FirmwareRev (by rw [d.firmware_len])
    simp [IdentDevData.GetFirmwareRevision, h1]

/-- Concrete ATA IDENTIFY data record with space-padded text fields, used
to witness the totality of the accessors. -/
def identSample : IdentDevData :=
  ⟨List.replicate 20 0x20, List.replicate 8 0x20, List.replicate 40 0x20,
   by decide, by decide, by decide⟩

/-- Witness for C10 at an odd-length buffer and a concrete record. -/
theorem swapByteOrder_call_sites_total_witness :
    swapByteOrder [0x41] = none ∧ identSample.GetSerialNumber.isSome :=
  ⟨swapByteOrder_call_sites_total.1 [0x41] (by decide),
   (swapByteOrder_call_sites_total.2 identSample).1⟩

/-!
Claims C1 and C2: READ CAPACITY(10) parsing and device classification.
-/

/-- Helper: a big-endian 32-bit field assembled from four bytes is below
`2^32`. -/
lemma binaryBigEndianUint32_lt (b0 b1 b2 b3 : UInt8) :
    binaryBigEndianUint32 b0 b1 b2 b3 < 2 ^ 32 := by
  have h0 : b0.toNat < 256 := b0.toNat_lt_size
  have h1 : b1.toNat < 256 := b1.toNat_lt_size
  have h2 : b2.toNat < 256 := b2.toNat_lt_size
  have h3 : b3.toNat < 256 := b3.toNat_lt_size
  unfold binaryBigEndianUint32
  refine Nat.or_lt_two_pow (Nat.or_lt_two_pow (Nat.or_lt_two_pow ?_ ?_) ?_) ?_
  · exact lt_of_lt_of_le h3 (by norm_num)
  · rw [Nat.shiftLeft_eq]
    norm_num
    omega
  · rw [Nat.shiftLeft_eq]
    norm_num
    omega
  · rw [Nat.shiftLeft_eq]
    norm_num
    omega

/-- C1: `readCapacity` parses the first 4 reply bytes as a big-endian
32-bit last logical block address, the next 4 as a big-endian 32-bit
block size, and the 64-bit product `(lastLBA + 1) * blockSize` never
wraps, so the truncation modulo `2^64` is the exact product; in
particular lastLBA 0 with block size 512 gives 512, and lastLBA
234441647 with block size 512 gives 120034123776. -/
theorem readCapacity_no_overflow :
    (∀ buf : List UInt8,
      readCapacityBytes buf = (lastLBAOf buf + 1) * LBsizeOf buf) ∧
    readCapacityBytes [0x00, 0x00, 0x00, 0x00, 0x00, 0x00, 0x02, 0x00] = 512 ∧
    readCapacityBytes [0x0d, 0xf9, 0x4b, 0xaf, 0x00, 0x00, 0x02, 0x00] =
      120034123776 := by
  refine ⟨fun buf => ?_, by decide, by decide⟩
  have h1 : lastLBAOf buf < 2 ^ 32 := binaryBigEndianUint32_lt _ _ _ _
  have h2 : LBsizeOf buf < 2 ^ 32 := binaryBigEndianUint32_lt _ _ _ _
  unfold readCapacityBytes
  apply Nat.mod_eq_of_lt
  calc (lastLBAOf buf + 1) * LBsizeOf buf
      ≤ 2 ^ 32 * LBsizeOf buf := Nat.mul_le_mul_right _ h1
    _ < 2 ^ 32 * 2 ^ 32 := mul_lt_mul_of_pos_left h2 (by positivity)
    _ = 2 ^ 64 := by norm_num

/-- Synthetic 36-byte INQUIRY response whose vendor-id field holds the
ATA byte literal. -/
def inquiryBufATA : List UInt8 :=
  List.replicate 8 0 ++ ataVendorID ++ List.replicate 20 0

/-- C2: on a 36-byte INQUIRY response the resolver returns the SATA
variant exactly when the decoded 8-byte vendor-id field (reply bytes
8 through 15) equals the byte literal for the ASCII string
`"ATA"` followed by 5 spaces, and the plain-SCSI variant exactly
otherwise. -/
theorem detect_sata_iff_ata_vendor (buf : List UInt8) (hlen : buf.length = 36) :
    (binaryReadInquiry buf).VendorID = (buf.drop 8).take 8 ∧
    ((DetectSCSIType ⟨none, none, buf, none, []⟩).1 = .ok .sataDev ↔
      (binaryReadInquiry buf).VendorID = ataVendorID) ∧
    ((DetectSCSIType ⟨none, none, buf, none, []⟩).1 = .ok .scsiDev ↔
      (binaryReadInquiry buf).VendorID ≠ ataVendorID) ∧
    ataVendorID = "ATA     ".data.map (fun c => UInt8.ofNat c.toNat) := by
  refine ⟨?_, ?_, ?_, by decide⟩
  · unfold binaryReadInquiry decodeInquiry
    rw [if_pos (by simp [INQRespLen, hlen])]
  · by_cases hv : (binaryReadInquiry buf).VendorID = ataVendorID <;>
      simp [DetectSCSIType, SCSIDevice.SCSIInquiry, hv]
  · by_cases hv : (binaryReadInquiry buf).VendorID = ataVendorID <;>
      simp [DetectSCSIType, SCSIDevice.SCSIInquiry, hv]

/-- Witness for C2 at a concrete 36-byte response carrying the ATA
vendor id. -/
theorem detect_sata_iff_ata_vendor_witness :
    (DetectSCSIType ⟨none, none, inquiryBufATA, none, []⟩).1 =
      .ok .sataDev :=
  (detect_sata_iff_ata_vendor inquiryBufATA (by decide)).2.1.mpr (by decide)

/-!
Claims C3 and C4: ATA major version and transport decode, spec-side
definitions versus source translations.
-/

/-- Helper: the spec's index-to-label map agrees with the Go `switch`
body of `GetATAMajorVersion` at every index. -/
lemma specMajorVersionLabel_eq (m : Nat) :
    specMajorVersionLabel m = majorVersionSwitch m := by
  rcases Nat.lt_or_ge m 11 with h | h
  · interval_cases m <;> rfl
  · obtain ⟨n, rfl⟩ : ∃ n, m = n + 11 := ⟨m - 11, by omega⟩
    have hn : ¬(1 ≤ n + 11 ∧ n + 11 ≤ 10) := by omega
    unfold specMajorVersionLabel
    rw [if_neg hn]
    rfl

/-- C3: the ATA major version decode matches the spec: words 0 and
0xFFFF report not-reported, any other word is labelled through the
most-significant-set-bit index with indices 1 through 10 mapped to
"ATA-1" through "ACS-3" and all other indices yielding the empty
string; in particular word 0x0010 yields "ATA/ATAPI-4". -/
theorem getATAMajorVersion_spec_conformance :
    (∀ w, specGetATAMajorVersion w = GetATAMajorVersion w) ∧
    GetATAMajorVersion 0x0010 = "ATA/ATAPI-4" ∧
    GetATAMajorVersion 0x0000 = "This device does not report ATA major version" ∧
    GetATAMajorVersion 0xffff = "This device does not report ATA major version" := by
  refine ⟨fun w => ?_, ?_, by decide, by decide⟩
  · unfold specGetATAMajorVersion GetATAMajorVersion
    by_cases h : w = 0 ∨ w = 0xffff
    · rw [if_pos h, if_pos h]
    · rw [if_neg h, if_neg h, specMajorVersionLabel_eq]
  · simp only [GetATAMajorVersion, msb_x10]
    decide

/-- Helper: the spec's SATA-revision lookup agrees with the Go `switch`
body of the Serial ATA case of `Transport` at every index. -/
lemma specSataCase_eq (m low : Nat) :
    (match sataRevisionLabels.get? m with
      | some lbl => "Serial ATA " ++ lbl
      | none => "Serial ATA SATA (" ++ goHexAlt 3 low ++ ")") =
    "Serial ATA" ++ sataSwitch m low := by
  rcases Nat.lt_or_ge m 8 with h | h
  · interval_cases m <;> rfl
  · obtain ⟨n, rfl⟩ : ∃ n, m = n + 8 := ⟨m - 8, by omega⟩
    show "Serial ATA SATA (" ++ goHexAlt 3 low ++ ")" =
      "Serial ATA" ++ (" SATA (" ++ goHexAlt 3 low ++ ")")
    have hlit : ("Serial ATA" : String) ++ " SATA (" = "Serial ATA SATA (" := by
      decide
    rw [← String.append_assoc, ← String.append_assoc, hlit]

/-- C4 counterexample: word 0x1005 has low-12-bit most-significant-bit
index 2, so the code decodes it to "Serial ATA SATA II Ext", refuting
the claim's example "Serial ATA SATA 3.0". -/
theorem transport_x1005_counterexample :
    ¬ (Transport 0x1005 = "Serial ATA SATA 3.0") := by
  simp only [Transport, msb_low12_x1005]
  decide

/-- C4 (amended): the transport decode matches the spec's general
description (not-reported for 0 and 0xFFFF; top nibble 0 Parallel ATA;
top nibble 1 Serial ATA refined through the SATA revision table with
other indices rendered in hex; top nibble 0xE PCIe in hex; otherwise
Unknown in hex); in particular word 0x1005 decodes to
"Serial ATA SATA II Ext" (low-12 MSB index 2) and word 0x1020 decodes to
"Serial ATA SATA 3.0" (low-12 MSB index 5). -/
theorem transport_spec_conformance :
    (∀ w, specTransport w = Transport w) ∧
    Transport 0x1005 = "Serial ATA SATA II Ext" ∧
    Transport 0x1020 = "Serial ATA SATA 3.0" ∧
    Transport 0x0000 = "This device does not report transport" := by
  refine ⟨fun w => ?_, ?_, ?_, by decide⟩
  · unfold specTransport Transport
    by_cases h0 : w = 0 ∨ w = 0xffff
    · rw [if_pos h0, if_pos h0]
    · rw [if_neg h0, if_neg h0]
      by_cases h1 : w >>> 12 = 0
      · rw [if_pos h1, if_pos h1]
      · rw [if_neg h1, if_neg h1]
        by_cases h2 : w >>> 12 = 1
        · rw [if_pos h2, if_pos h2]
          exact specSataCase_eq _ _
        · rw [if_neg h2, if_neg h2]
  · simp only [Transport, msb_low12_x1005]
    decide
  · simp only [Transport, msb_low12_x1020]
    decide

/-!
Claim C5: sector size decode.
-/

/-- C5 counterexample: at word 0x6007 (bits 15:14 = 01, bit 13 set, low
nibble 7) the `uint16` shift wraps: the code's physical size is
`(512 <<< 7) % 65536 = 0`, not the claim's `512 * 2^7 = 65536`. -/
theorem getSectorSize_claim_counterexample :
    ¬ ((GetSectorSize 0x6007).2 = 512 * 2 ^ (0x6007 &&& 0xf)) := by decide

/-- C5 (amended): the logical sector size is always 512; when bits 15:14
equal binary 01 and bit 13 is set the physical sector size is
`(512 * 2^(w &&& 0xF)) % 2^16` — the `uint16` product, which wraps for
low nibbles of 7 or more — and in every other case it stays 512; in
particular word 0x0000 gives (512, 512) and word 0x6001 gives physical
size 1024. -/
theorem getSectorSize_uint16_truncation :
    (∀ w, (GetSectorSize w).1 = 512) ∧
    (∀ w, w &&& 0xc000 = 0x4000 → w &&& 0x2000 ≠ 0 →
      (GetSectorSize w).2 = (512 * 2 ^ (w &&& 0x0f)) % 65536) ∧
    (∀ w, ¬(w &&& 0xc000 = 0x4000 ∧ w &&& 0x2000 ≠ 0) →
      (GetSectorSize w).2 = 512) ∧
    GetSectorSize 0x0000 = (512, 512) ∧
    (GetSectorSize 0x6001).2 = 1024 := by
  have hsnd : ∀ w, (GetSectorSize w).2 =
      if w &&& 0xc000 = 0x4000 then
        if w &&& 0x2000 ≠ 0x0000 then (512 <<< (w &&& 0x0f)) % 65536 else 512
      else 512 := fun w => rfl
  refine ⟨fun w => rfl, fun w hc hb => ?_, fun w hn => ?_, by decide, by decide⟩
  · rw [hsnd, if_pos hc, if_pos hb, Nat.shiftLeft_eq]
  · rw [hsnd]
    by_cases hc : w &&& 0xc000 = 0x4000
    · have hb : ¬ (w &&& 0x2000 ≠ 0x0000) := fun hb => hn ⟨hc, hb⟩
      rw [if_pos hc, if_neg hb]
    · rw [if_neg hc]

/-- Witness for C5 at word 0x6001: the truncation branch applies and
yields 1024. -/
theorem getSectorSize_uint16_truncation_witness :
    (GetSectorSize 0x6001).2 = (512 * 2 ^ (0x6001 &&& 0x0f)) % 65536 :=
  getSectorSize_uint16_truncation.2.1 0x6001 (by decide) (by decide)

/-!
Claim C6: short response buffers.
-/

/-- C6 counterexample: the INQUIRY parse step given a 20-byte buffer
does not fail — the `binary.Read` error is discarded — and the zero
response is returned together with a nil error. -/
theorem inquiry_short_buffer_counterexample :
    (SCSIDevice.SCSIInquiry ⟨none, none, List.replicate 20 0, none, []⟩).2 =
      none ∧
    (SCSIDevice.SCSIInquiry ⟨none, none, List.replicate 20 0, none, []⟩).1 =
      zeroInquiry := by decide

/-- C6 (amended): on any response buffer shorter than `INQRespLen` the
INQUIRY parse never reads past the end of the buffer, but it does not
fail either: the decode error is discarded and `SCSIInquiry` returns the
zero-valued response with a nil error. -/
theorem inquiry_short_buffer_no_error (buf : List UInt8)
    (h : buf.length < INQRespLen) (oe re : Option String) (rb : List UInt8) :
    SCSIDevice.SCSIInquiry ⟨oe, none, buf, re, rb⟩ = (zeroInquiry, none) := by
  have h36 : ¬ (INQRespLen ≤ buf.length) := by omega
  unfold SCSIDevice.SCSIInquiry binaryReadInquiry
  rw [if_neg h36]

/-- Witness for C6 at a concrete 20-byte buffer. -/
theorem inquiry_short_buffer_no_error_witness :
    SCSIDevice.SCSIInquiry ⟨none, none, List.replicate 20 0, none, []⟩ =
      (zeroInquiry, none) :=
  inquiry_short_buffer_no_error (List.replicate 20 0) (by decide) none none []

/-!
Claims C7 and C8: resource discipline and error propagation.
-/

/-- World in which `unix.Open` succeeds and the INQUIRY `sendCDB`
reports a device error. -/
def inquiryFailWorld : SgWorld :=
  ⟨none, some "SCSI status: 0x02, host status: 0x00, driver status: 0x00",
   [], none, []⟩

/-- C7: when the INQUIRY command fails, `DetectSCSIType` returns the
error while the file descriptor it opened is never closed — the event
trace holds the `opened` event and no `closed` event, contradicting the
close-on-every-exit-path discipline. -/
theorem detect_fd_leak_on_inquiry_failure :
    (DetectSCSIType inquiryFailWorld).1 =
      .error "SCSI status: 0x02, host status: 0x00, driver status: 0x00" ∧
    Event.opened ∈ (DetectSCSIType inquiryFailWorld).2 ∧
    Event.closed ∉ (DetectSCSIType inquiryFailWorld).2 :=
  ⟨rfl, by decide, by decide⟩

/-- World in which the READ CAPACITY `sendCDB` reports a device error. -/
def readCapFailWorld : SgWorld :=
  ⟨none, none, [],
   some "SCSI status: 0x02, host status: 0x00, driver status: 0x00", []⟩

/-- C8 counterexample: in a world where `readCapacity` fails, the
plain-SCSI `GetDiskInfo` still returns a nil error and capacity 0 — the
failure is discarded, not reported to the caller. -/
theorem getDiskInfo_swallow_counterexample :
    (SCSIDevice.readCapacity readCapFailWorld).2 ≠ none ∧
    SCSIDevice.GetDiskInfo readCapFailWorld = (⟨0⟩, none) := by decide

/-- C8 (amended): the plain-SCSI `GetDiskInfo` always returns a nil
error, and whenever `readCapacity` fails it reports capacity 0: the
`capacity, _ := d.readCapacity()` assignment swallows the failure. -/
theorem getDiskInfo_swallows_readCapacity_error (w : SgWorld) :
    (SCSIDevice.GetDiskInfo w).2 = none ∧
    (w.readCapErr.isSome → (SCSIDevice.GetDiskInfo w).1.UserCapacity = 0) := by
  refine ⟨rfl, fun h => ?_⟩
  rcases hw : w.readCapErr with _ | e
  · rw [hw] at h
    simp at h
  · simp [SCSIDevice.GetDiskInfo, SCSIDevice.readCapacity, hw]

/-- Witness for C8 at the concrete failing world. -/
theorem getDiskInfo_swallows_readCapacity_error_witness :
    (SCSIDevice.GetDiskInfo readCapFailWorld).2 = none ∧
    (SCSIDevice.GetDiskInfo readCapFailWorld).1.UserCapacity = 0 :=
  ⟨(getDiskInfo_swallows_readCapacity_error readCapFailWorld).1,
   (getDiskInfo_swallows_readCapacity_error readCapFailWorld).2 (by decide)⟩
